import Mathlib

/-
Verification of the Pulse-AI client conversation core.

The definitions below are a shallow embedding of the JavaScript client:
- the session-capable chat component (frontend/src/components/ChatComponent.js,
  the variant with hasInitialSubmission and currentSessionId),
- the earlier Client_Side variant of ChatComponent.js,
- the App-level history loading and delete handlers (App.js),
- the Sidebar rename handler (Sidebar.js),
- the api service error normalization (services/api.js).

React state is modelled as records; an async handler becomes a pure function
from the pre-state and the (externally supplied) store outcome to the
post-state.  JavaScript string-falsiness (the a || b idiom) is modelled
explicitly.
-/

namespace PulseAI

/-- JavaScript String.prototype.trim: strip whitespace from both ends.
Defined over the character list so that it evaluates by reduction. -/
def jsTrim (s : String) : String :=
  String.mk (((s.data.dropWhile Char.isWhitespace).reverse.dropWhile
      Char.isWhitespace).reverse)

/-- JavaScript `a || b` on strings: the empty string is falsy. -/
def jsOrS (a b : String) : String :=
  if a = "" then b else a

/-- JavaScript truthiness of a possibly-null string value:
null/undefined and the empty string are falsy. -/
def optTruthy : Option String → Bool
  | none => false
  | some s => s != ""

/-- JavaScript `a || b` on possibly-null string values. -/
def jsOrOpt (a b : Option String) : Option String :=
  if optTruthy a then a else b

/-- Role tag of a transcript entry (the `type` field of a message object). -/
inductive MsgType where
  | user
  | ai
  deriving DecidableEq

/-- One entry of the local transcript (`messages` array element). -/
structure Msg where
  type : MsgType
  content : String
  name : Option String
  deriving DecidableEq

/-- State of the session-capable ChatComponent: the useState variables that
the submit handler reads or writes. -/
structure ChatState where
  name : String
  problem : String
  message : String
  loading : Bool
  error : String
  fieldErrorName : Bool
  fieldErrorMessage : Bool
  messages : List Msg
  hasInitialSubmission : Bool
  initialName : String
  initialProblem : String
  currentSessionId : Option String
  deriving DecidableEq

/-- The request body built by handleSubmit (`chatData`): `problem` is
nullable and `session_id` is present only on continuations. -/
structure ChatData where
  name : String
  problem : Option String
  message : String
  session_id : Option String
  deriving DecidableEq

/-- The store response consumed by handleSubmit.  `ai_response` may be
missing or empty; `id` is the session id and `mid` models the Mongo
`_id` fallback field. -/
structure ChatResponse where
  ai_response : Option String
  id : Option String
  mid : Option String
  deriving DecidableEq

/-- `response.id || response._id || null` from handleSubmit. -/
def respSessionId (r : ChatResponse) : Option String :=
  jsOrOpt r.id (jsOrOpt r.mid none)

/-- Outcome of the awaited createChat call. -/
inductive StoreResult where
  | success (resp : ChatResponse)
  | failure (errMsg : String)

/-- Result of the validation prefix of handleSubmit: either an early return
with a field error, or the constructed request body. -/
inductive SubmitAction where
  | blockedName
  | blockedMessage
  | proceed (req : ChatData)
  deriving DecidableEq

/-- The validation and request-construction prefix of handleSubmit
(session-capable ChatComponent).  Mirrors the source: the name is checked
only before the initial submission; the message is always required; the
request reuses initialPatientInfo after the initial submission and attaches
session_id only when continuing with a truthy currentSessionId. -/
def validateAndBuild (st : ChatState) : SubmitAction :=
  if st.hasInitialSubmission = false ∧ (jsTrim st.name) = "" then
    SubmitAction.blockedName
  else if (jsTrim st.message) = "" then
    SubmitAction.blockedMessage
  else
    SubmitAction.proceed
      { name := if st.hasInitialSubmission then st.initialName else jsOrS (jsTrim st.name) "Anonymous"
        problem :=
          if st.hasInitialSubmission then
            (if st.initialProblem = "No specific disease mentioned" then none
             else some st.initialProblem)
          else
            (if (jsTrim st.problem) = "" then none else some (jsTrim st.problem))
        message := (jsTrim st.message)
        session_id :=
          if st.hasInitialSubmission ∧ optTruthy st.currentSessionId then st.currentSessionId
          else none }

/-- The user turn appended optimistically before the store call. -/
def userMsgOf (st : ChatState) : Msg :=
  { type := MsgType.user
    content := (jsTrim st.message)
    name := some (if st.hasInitialSubmission then st.initialName
                  else jsOrS (jsTrim st.name) "Anonymous") }

/-- The whole submit handler of the session-capable ChatComponent, as a
function of the pre-state and the store outcome.  On a validation failure
the handler returns early with a field error; otherwise it clears errors,
appends the user turn optimistically, and on success appends the assistant
turn, binds the session id on a first submission, and clears the message
field; the finally-block drops the loading flag in both branches. -/
def handleSubmit (st : ChatState) (store : StoreResult) : ChatState :=
  match validateAndBuild st with
  | SubmitAction.blockedName =>
      { st with error := "Please enter your name"
                fieldErrorName := true
                fieldErrorMessage := false }
  | SubmitAction.blockedMessage =>
      { st with error := if st.hasInitialSubmission then "Please enter your question or message"
                         else "Please describe your medical issue or symptoms"
                fieldErrorName := false
                fieldErrorMessage := true }
  | SubmitAction.proceed _ =>
      let st1 : ChatState :=
        { st with error := ""
                  fieldErrorName := false
                  fieldErrorMessage := false
                  loading := true
                  messages := st.messages ++ [userMsgOf st] }
      match store with
      | StoreResult.failure e =>
          { st1 with error := jsOrS e "An unexpected error occurred", loading := false }
      | StoreResult.success resp =>
          let aiResp : String := resp.ai_response.getD ""
          let sid : Option String := respSessionId resp
          let st2 : ChatState :=
            { st1 with messages :=
                st1.messages ++ [{ type := MsgType.ai, content := aiResp, name := none }] }
          let st3 : ChatState :=
            if st.hasInitialSubmission = false then
              { st2 with initialName := jsOrS (jsTrim st.name) "Anonymous"
                         initialProblem := jsOrS (jsTrim st.problem) "No specific disease mentioned"
                         hasInitialSubmission := true
                         currentSessionId := sid }
            else if optTruthy sid ∧ sid ≠ st.currentSessionId then
              { st2 with currentSessionId := sid }
            else st2
          { st3 with message := "", loading := false }

/-- Request body of the Client_Side ChatComponent variant: message is
nullable there. -/
structure CSChatData where
  name : String
  problem : String
  message : Option String
  deriving DecidableEq

/-- Validation result of the Client_Side variant. -/
inductive CSAction where
  | blockedName
  | blockedDisease
  | proceed (req : CSChatData)
  deriving DecidableEq

/-- Validation and request construction of the Client_Side ChatComponent
variant: name and problem are required, message is optional. -/
def csValidateAndBuild (nm problem message : String) : CSAction :=
  if (jsTrim nm) = "" then CSAction.blockedName
  else if (jsTrim problem) = "" then CSAction.blockedDisease
  else
    CSAction.proceed
      { name := jsOrS (jsTrim nm) "Anonymous"
        problem := (jsTrim problem)
        message := if (jsTrim message) = "" then none else some (jsTrim message) }

/-- A persisted chat session as the client sees it in the history list.
`mid` models the Mongo `_id` fallback field. -/
structure Session where
  id : Option String
  mid : Option String
  patient_name : Option String
  problem : Option String
  pinned : Bool
  deriving DecidableEq

/-- Outcome of the history fetch. -/
inductive FetchResult where
  | success (sessions : List Session)
  | failure (errMsg : String)

/-- App-level history refresh (fetchChatHistory in App.js and
loadChatHistory in the api-service variant are identical in effect):
returns the new cached list and the final loadingHistory flag.  On failure
the cache is replaced with the empty list; the finally-block clears the
loading flag in both branches. -/
def loadChatHistory (_cached : List Session) (r : FetchResult) :
    List Session × Bool :=
  match r with
  | FetchResult.success data => (data, false)
  | FetchResult.failure _ => ([], false)

/-- Outcome of the store delete call. -/
inductive DeleteResult where
  | success
  | failure (errMsg : String)

/-- App-level delete handler (handleChatDelete in App.js), restricted to its
effect on currentChat: on success the active chat is cleared when its id or
_id equals the deleted id, otherwise left unchanged; on failure the await
throws before the clearing line runs. -/
def handleChatDelete (currentChat : Option Session) (chatId : String)
    (r : DeleteResult) : Option Session :=
  match r with
  | DeleteResult.failure _ => currentChat
  | DeleteResult.success =>
      match currentChat with
      | none => none
      | some c =>
          if c.id = some chatId ∨ c.mid = some chatId then none else some c

/-- The ChatComponent state produced by the useEffect branch that runs when
currentChat becomes null (new chat / active chat deleted): every field is
reset, the initial-submission flag and the session id are cleared. -/
def resetChatState : ChatState :=
  { name := ""
    problem := ""
    message := ""
    loading := false
    error := ""
    fieldErrorName := false
    fieldErrorMessage := false
    messages := []
    hasInitialSubmission := false
    initialName := ""
    initialProblem := ""
    currentSessionId := none }

/-- The partial-update body sent by a rename. -/
structure RenameUpdate where
  problem : String
  deriving DecidableEq

/-- The rename save handler of Sidebar.js, as the update payload it sends:
none models the branch that makes no store call (blank title, rename
cancelled), some carries the PATCH body. -/
def handleSaveRename (newChatName : String) : Option RenameUpdate :=
  if (jsTrim newChatName) = "" then none
  else some { problem := (jsTrim newChatName) }

/-- Axios error shapes distinguished by the createChat wrapper in
services/api.js. -/
inductive AxiosError where
  | response (detail : Option String)
  | timeout
  | request
  | other

/-- The error message createChat throws for each axios failure shape
(services/api.js): server detail when truthy, otherwise fixed texts for
server errors, timeouts, connectivity failures and anything else. -/
def createChatErrorMessage : AxiosError → String
  | AxiosError.response d =>
      jsOrS (d.getD "") "An error occurred while processing your request"
  | AxiosError.timeout =>
      "Request timed out. Please check your connection and try again."
  | AxiosError.request =>
      "Unable to connect to the server. Please check if the backend is running."
  | AxiosError.other => "An unexpected error occurred"

/-- jsOrS returns its first argument when that argument is nonempty. -/
theorem jsOrS_of_ne (a b : String) (h : a ≠ "") : jsOrS a b = a := by
  simp [jsOrS, h]

/-- jsOrS never returns the empty string when its fallback is nonempty. -/
theorem jsOrS_ne_empty (a b : String) (h : b ≠ "") : jsOrS a b ≠ "" := by
  unfold jsOrS
  split
  · exact h
  · assumption

/-- optTruthy on a present string decides its nonemptiness. -/
theorem optTruthy_some (s : String) : optTruthy (some s) = (s != "") := rfl

/-- A sample ACTIVE_SESSION state used by concrete witnesses. -/
def sampleActive : ChatState :=
  { name := "Jane"
    problem := "fever"
    message := " does it spread? "
    loading := false
    error := ""
    fieldErrorName := false
    fieldErrorMessage := false
    messages := [{ type := MsgType.user, content := "fever", name := some "Jane" },
                 { type := MsgType.ai, content := "Take rest", name := none }]
    hasInitialSubmission := true
    initialName := "Jane"
    initialProblem := "fever"
    currentSessionId := some "abc123" }

/-- C1: from ACTIVE_SESSION with a bound session id, the request built by
the submit handler takes its name and problem solely from the patient info
captured at session start (never from the editable fields, whose value is
irrelevant) and always carries the bound session id. -/
theorem C1_active_request (st : ChatState) (sid : String)
    (hactive : st.hasInitialSubmission = true)
    (hsid : st.currentSessionId = some sid) (hne : sid ≠ "")
    (hmsg : (jsTrim st.message) ≠ "") :
    validateAndBuild st = SubmitAction.proceed
      { name := st.initialName
        problem := if st.initialProblem = "No specific disease mentioned" then none
                   else some st.initialProblem
        message := (jsTrim st.message)
        session_id := some sid } ∧
    (∀ n p : String,
      validateAndBuild { st with name := n, problem := p } = validateAndBuild st) := by
  have htruthy : optTruthy (some sid) = true := by
    rw [optTruthy_some, bne_iff_ne]
    exact hne
  constructor
  · simp [validateAndBuild, hactive, hmsg, hsid, htruthy]
  · intro n p
    simp [validateAndBuild, hactive, hmsg, hsid, htruthy]

/-- C1 witness at a concrete ACTIVE_SESSION state. -/
theorem C1_active_request_witness :
    validateAndBuild sampleActive = SubmitAction.proceed
      { name := sampleActive.initialName
        problem := if sampleActive.initialProblem = "No specific disease mentioned" then none
                   else some sampleActive.initialProblem
        message := jsTrim sampleActive.message
        session_id := some "abc123" } ∧
    (∀ n p : String,
      validateAndBuild { sampleActive with name := n, problem := p }
        = validateAndBuild sampleActive) :=
  C1_active_request sampleActive "abc123" rfl rfl (by decide) (by decide)

/-- C2: before the initial submission, a blank name blocks the submission:
the handler returns early with the name error and touches nothing else, so
the store outcome is irrelevant (no store call); the Client_Side variant
blocks a blank name the same way. -/
theorem C2_blank_name_blocked (st : ChatState) (store : StoreResult)
    (hfirst : st.hasInitialSubmission = false) (hname : (jsTrim st.name) = "") :
    validateAndBuild st = SubmitAction.blockedName ∧
    handleSubmit st store =
      { st with error := "Please enter your name"
                fieldErrorName := true
                fieldErrorMessage := false } ∧
    (∀ nm p m : String, (jsTrim nm) = "" →
       csValidateAndBuild nm p m = CSAction.blockedName) := by
  have hblock : validateAndBuild st = SubmitAction.blockedName := by
    simp [validateAndBuild, hfirst, hname]
  refine ⟨hblock, ?_, ?_⟩
  · unfold handleSubmit
    rw [hblock]
  · intro nm p m hnm
    simp [csValidateAndBuild, hnm]

/-- C2 witness: an uninitialized state whose name is whitespace-only. -/
theorem C2_blank_name_blocked_witness :
    validateAndBuild { resetChatState with name := "   ", message := "fever" }
      = SubmitAction.blockedName ∧
    handleSubmit { resetChatState with name := "   ", message := "fever" }
        (StoreResult.failure "x") =
      { resetChatState with name := "   ", message := "fever",
                            error := "Please enter your name",
                            fieldErrorName := true, fieldErrorMessage := false } ∧
    (∀ nm p m : String, (jsTrim nm) = "" →
       csValidateAndBuild nm p m = CSAction.blockedName) :=
  C2_blank_name_blocked { resetChatState with name := "   ", message := "fever" }
    (StoreResult.failure "x") rfl (by decide)

/-- C3: when the store call fails (any failure shape of createChat,
timeouts included), the optimistically appended user turn stays in the
transcript, no assistant turn is appended, the thrown message is surfaced
as a nonempty error banner, and the loading flag ends at false. -/
theorem C3_failure_keeps_user_turn (st : ChatState) (req : ChatData) (ax : AxiosError)
    (hreq : validateAndBuild st = SubmitAction.proceed req) :
    (handleSubmit st (StoreResult.failure (createChatErrorMessage ax))).messages
        = st.messages ++ [userMsgOf st] ∧
    (userMsgOf st).type = MsgType.user ∧
    (handleSubmit st (StoreResult.failure (createChatErrorMessage ax))).error
        = createChatErrorMessage ax ∧
    createChatErrorMessage ax ≠ "" ∧
    (handleSubmit st (StoreResult.failure (createChatErrorMessage ax))).loading = false := by
  have hne : createChatErrorMessage ax ≠ "" := by
    cases ax with
    | response d => exact jsOrS_ne_empty _ _ (by decide)
    | timeout => decide
    | request => decide
    | other => decide
  unfold handleSubmit
  rw [hreq]
  exact ⟨rfl, rfl, jsOrS_of_ne _ _ hne, hne, rfl⟩

/-- C3 witness: a timed-out createChat call from a concrete active state. -/
theorem C3_failure_keeps_user_turn_witness :
    (handleSubmit sampleActive
        (StoreResult.failure (createChatErrorMessage AxiosError.timeout))).messages
      = sampleActive.messages ++ [userMsgOf sampleActive] ∧
    (userMsgOf sampleActive).type = MsgType.user ∧
    (handleSubmit sampleActive
        (StoreResult.failure (createChatErrorMessage AxiosError.timeout))).error
      = createChatErrorMessage AxiosError.timeout ∧
    createChatErrorMessage AxiosError.timeout ≠ "" ∧
    (handleSubmit sampleActive
        (StoreResult.failure (createChatErrorMessage AxiosError.timeout))).loading = false :=
  C3_failure_keeps_user_turn sampleActive
    { name := "Jane", problem := some "fever", message := "does it spread?",
      session_id := some "abc123" }
    AxiosError.timeout (by decide)

/-- The Scenario A input state of the spec: fresh chat, name Jane, problem
fever, empty message. -/
def scenarioAState : ChatState :=
  { resetChatState with name := "Jane", problem := "fever", message := "" }

/-- A successful store response used to show Scenario A never reaches it. -/
def scenarioAResponse : ChatResponse :=
  { ai_response := some "Take rest", id := some "abc123", mid := none }

/-- C4 counterexample: in the session-capable component, submitting a new
chat with name Jane, problem fever and an empty message is blocked by the
message validation; even against a successful store the state never becomes
ACTIVE_SESSION, no session id is bound, the transcript stays empty and the
message error is surfaced. -/
theorem C4_counterexample :
    validateAndBuild scenarioAState = SubmitAction.blockedMessage ∧
    (handleSubmit scenarioAState (StoreResult.success scenarioAResponse)).hasInitialSubmission
        = false ∧
    (handleSubmit scenarioAState (StoreResult.success scenarioAResponse)).currentSessionId
        = none ∧
    (handleSubmit scenarioAState (StoreResult.success scenarioAResponse)).messages = [] ∧
    (handleSubmit scenarioAState (StoreResult.success scenarioAResponse)).error
        = "Please describe your medical issue or symptoms" := by
  refine ⟨by decide, ?_, ?_, ?_, ?_⟩ <;> decide

/-- C4 amended: on a first submission whose name and message are both
non-blank, a successful store call appends the returned assistant turn
after the optimistic user turn, transitions to ACTIVE_SESSION and binds the
session id from the response; a first submission with a blank message is
blocked before any store call and changes neither the transcript nor the
session state. -/
theorem C4_amended_first_submission (st : ChatState) (resp : ChatResponse)
    (hfirst : st.hasInitialSubmission = false) (hname : (jsTrim st.name) ≠ "")
    (hmsg : (jsTrim st.message) ≠ "") :
    (handleSubmit st (StoreResult.success resp)).hasInitialSubmission = true ∧
    (handleSubmit st (StoreResult.success resp)).currentSessionId = respSessionId resp ∧
    (handleSubmit st (StoreResult.success resp)).messages =
      st.messages ++ [userMsgOf st,
        { type := MsgType.ai, content := resp.ai_response.getD "", name := none }] ∧
    (handleSubmit st (StoreResult.success resp)).loading = false ∧
    (∀ (st2 : ChatState) (s1 s2 : StoreResult), (jsTrim st2.message) = "" →
       handleSubmit st2 s1 = handleSubmit st2 s2 ∧
       (handleSubmit st2 s1).messages = st2.messages ∧
       (handleSubmit st2 s1).hasInitialSubmission = st2.hasInitialSubmission) := by
  have hbuild : validateAndBuild st = SubmitAction.proceed
      { name := jsOrS (jsTrim st.name) "Anonymous"
        problem := if (jsTrim st.problem) = "" then none else some (jsTrim st.problem)
        message := (jsTrim st.message)
        session_id := none } := by
    simp [validateAndBuild, hfirst, hname, hmsg]
  have hmain : handleSubmit st (StoreResult.success resp) =
      { st with error := ""
                fieldErrorName := false
                fieldErrorMessage := false
                message := ""
                loading := false
                messages := st.messages ++ [userMsgOf st,
                  { type := MsgType.ai, content := resp.ai_response.getD "", name := none }]
                initialName := jsOrS (jsTrim st.name) "Anonymous"
                initialProblem := jsOrS (jsTrim st.problem) "No specific disease mentioned"
                hasInitialSubmission := true
                currentSessionId := respSessionId resp } := by
    unfold handleSubmit
    rw [hbuild]
    simp [hfirst]
  refine ⟨by rw [hmain], by rw [hmain], by rw [hmain], by rw [hmain], ?_⟩
  intro st2 s1 s2 hblank
  have : validateAndBuild st2 = SubmitAction.blockedName ∨
      validateAndBuild st2 = SubmitAction.blockedMessage := by
    by_cases hn : st2.hasInitialSubmission = false ∧ (jsTrim st2.name) = ""
    · exact Or.inl (by simp [validateAndBuild, hn])
    · exact Or.inr (by simp [validateAndBuild, hn, hblank])
  rcases this with h | h <;>
    · unfold handleSubmit
      rw [h]
      exact ⟨rfl, rfl, rfl⟩

/-- C4 amended witness: concrete first submission name Jane, problem fever,
message fever against a successful response. -/
theorem C4_amended_first_submission_witness :
    (handleSubmit { scenarioAState with message := "fever" }
        (StoreResult.success scenarioAResponse)).hasInitialSubmission = true ∧
    (handleSubmit { scenarioAState with message := "fever" }
        (StoreResult.success scenarioAResponse)).currentSessionId
      = respSessionId scenarioAResponse ∧
    (handleSubmit { scenarioAState with message := "fever" }
        (StoreResult.success scenarioAResponse)).messages =
      scenarioAState.messages ++ [userMsgOf { scenarioAState with message := "fever" },
        { type := MsgType.ai, content := scenarioAResponse.ai_response.getD "",
          name := none }] ∧
    (handleSubmit { scenarioAState with message := "fever" }
        (StoreResult.success scenarioAResponse)).loading = false ∧
    (∀ (st2 : ChatState) (s1 s2 : StoreResult), (jsTrim st2.message) = "" →
       handleSubmit st2 s1 = handleSubmit st2 s2 ∧
       (handleSubmit st2 s1).messages = st2.messages ∧
       (handleSubmit st2 s1).hasInitialSubmission = st2.hasInitialSubmission) :=
  C4_amended_first_submission { scenarioAState with message := "fever" }
    scenarioAResponse rfl (by decide) (by decide)

/-- C5: from ACTIVE_SESSION, a blank message blocks the submission before
any store call: the handler returns early with the message error and the
transcript, session id and mode are unchanged. -/
theorem C5_active_blank_message_blocked (st : ChatState) (store : StoreResult)
    (hactive : st.hasInitialSubmission = true) (hmsg : (jsTrim st.message) = "") :
    validateAndBuild st = SubmitAction.blockedMessage ∧
    handleSubmit st store =
      { st with error := "Please enter your question or message"
                fieldErrorName := false
                fieldErrorMessage := true } ∧
    (handleSubmit st store).messages = st.messages ∧
    (handleSubmit st store).currentSessionId = st.currentSessionId ∧
    (handleSubmit st store).hasInitialSubmission = true := by
  have hblock : validateAndBuild st = SubmitAction.blockedMessage := by
    simp [validateAndBuild, hactive, hmsg]
  have hstate : handleSubmit st store =
      { st with error := "Please enter your question or message"
                fieldErrorName := false
                fieldErrorMessage := true } := by
    unfold handleSubmit
    rw [hblock]
    simp [hactive]
  exact ⟨hblock, hstate, by rw [hstate], by rw [hstate], by rw [hstate]; exact hactive⟩

/-- C5 witness: concrete active session with a whitespace-only message. -/
theorem C5_active_blank_message_blocked_witness :
    validateAndBuild { sampleActive with message := "  " }
      = SubmitAction.blockedMessage ∧
    handleSubmit { sampleActive with message := "  " } (StoreResult.failure "x") =
      { sampleActive with message := "  ",
                          error := "Please enter your question or message",
                          fieldErrorName := false, fieldErrorMessage := true } ∧
    (handleSubmit { sampleActive with message := "  " }
        (StoreResult.failure "x")).messages = sampleActive.messages ∧
    (handleSubmit { sampleActive with message := "  " }
        (StoreResult.failure "x")).currentSessionId = sampleActive.currentSessionId ∧
    (handleSubmit { sampleActive with message := "  " }
        (StoreResult.failure "x")).hasInitialSubmission = true :=
  C5_active_blank_message_blocked { sampleActive with message := "  " }
    (StoreResult.failure "x") rfl (by decide)

/-- C6: when the store succeeds but the assistant content is missing or
empty, the empty string is still appended as an assistant turn right after
the optimistic user turn, with no special-casing. -/
theorem C6_empty_ai_response_appended (st : ChatState) (req : ChatData) (resp : ChatResponse)
    (hreq : validateAndBuild st = SubmitAction.proceed req)
    (hempty : resp.ai_response = none ∨ resp.ai_response = some "") :
    (handleSubmit st (StoreResult.success resp)).messages =
      st.messages ++ [userMsgOf st, { type := MsgType.ai, content := "", name := none }] := by
  have hcontent : resp.ai_response.getD "" = "" := by
    rcases hempty with h | h <;> rw [h] <;> rfl
  unfold handleSubmit
  rw [hreq]
  simp only [hcontent]
  split
  · simp
  · split <;> simp

/-- C6 witness: concrete continuation where the store returns success with
an empty assistant body. -/
theorem C6_empty_ai_response_appended_witness :
    (handleSubmit sampleActive
        (StoreResult.success { ai_response := some "", id := some "abc123", mid := none })).messages =
      sampleActive.messages ++
        [userMsgOf sampleActive, { type := MsgType.ai, content := "", name := none }] :=
  C6_empty_ai_response_appended sampleActive
    { name := "Jane", problem := some "fever", message := "does it spread?",
      session_id := some "abc123" }
    { ai_response := some "", id := some "abc123", mid := none }
    (by decide) (Or.inr rfl)

/-- C7: whatever the cached list was, a failed history refresh replaces the
cache with the empty list and clears the loading flag (both the App.js
fetchChatHistory and the api-service loadChatHistory behave this way). -/
theorem C7_history_failure_empties_cache (cached : List Session) (emsg : String) :
    loadChatHistory cached (FetchResult.failure emsg) = ([], false) := rfl

/-- C8: after a confirmed and successful delete of the active session
(matched through its id or its Mongo fallback id), the active chat is
cleared; the null current chat drives the ChatComponent useEffect to the
reset state: initial-submission flag false, session id unbound, transcript
empty; deleting a session that is not the active one leaves the active
chat untouched. -/
theorem C8_delete_active_resets (c : Session) (chatId : String)
    (hmatch : c.id = some chatId ∨ c.mid = some chatId) :
    handleChatDelete (some c) chatId DeleteResult.success = none ∧
    resetChatState.hasInitialSubmission = false ∧
    resetChatState.currentSessionId = none ∧
    resetChatState.messages = [] ∧
    (∀ c2 : Session, c2.id ≠ some chatId → c2.mid ≠ some chatId →
       handleChatDelete (some c2) chatId DeleteResult.success = some c2) ∧
    (∀ cur : Option Session, ∀ e : String,
       handleChatDelete cur chatId (DeleteResult.failure e) = cur) := by
  refine ⟨?_, rfl, rfl, rfl, ?_, ?_⟩
  · simp [handleChatDelete, hmatch]
  · intro c2 h1 h2
    simp [handleChatDelete, h1, h2]
  · intro cur e
    rfl

/-- C8 witness: delete the concrete active session abc123 and a concrete
non-active session def456. -/
theorem C8_delete_active_resets_witness :
    handleChatDelete
        (some { id := some "abc123", mid := none, patient_name := some "Jane",
                problem := some "fever", pinned := false })
        "abc123" DeleteResult.success = none ∧
    resetChatState.hasInitialSubmission = false ∧
    resetChatState.currentSessionId = none ∧
    resetChatState.messages = [] ∧
    (∀ c2 : Session, c2.id ≠ some "abc123" → c2.mid ≠ some "abc123" →
       handleChatDelete (some c2) "abc123" DeleteResult.success = some c2) ∧
    (∀ cur : Option Session, ∀ e : String,
       handleChatDelete cur "abc123" (DeleteResult.failure e) = cur) :=
  C8_delete_active_resets
    { id := some "abc123", mid := none, patient_name := some "Jane",
      problem := some "fever", pinned := false }
    "abc123" (Or.inl rfl)

/-- C9: a rename whose new title trims to empty produces no update payload
(no store call, so the stored title stays what it was); a non-blank title
produces exactly the partial update carrying the trimmed title as the
problem field. -/
theorem C9_rename_validation (t : String) :
    ((jsTrim t) = "" → handleSaveRename t = none) ∧
    ((jsTrim t) ≠ "" → handleSaveRename t = some { problem := (jsTrim t) }) := by
  constructor
  · intro h
    simp [handleSaveRename, h]
  · intro h
    simp [handleSaveRename, h]

/-- C9 witness: a whitespace-only title makes no call; a padded real title
sends its trimmed form. -/
theorem C9_rename_validation_witness :
    handleSaveRename "   " = none ∧
    handleSaveRename " Flu case " = some { problem := "Flu case" } :=
  ⟨(C9_rename_validation "   ").1 (by decide),
   (C9_rename_validation " Flu case ").2 (by decide)⟩

/-- C10: when the first successful response carries neither id nor Mongo
fallback id, the client binds the session id to null while still entering
the active state; any submission made in the active state with a null bound
id builds a request without session_id, and any built request that does
carry session_id comes from a state whose bound id is non-null (and
nonempty). -/
theorem C10_missing_id_binds_null (st : ChatState) (resp : ChatResponse)
    (hfirst : st.hasInitialSubmission = false) (hname : (jsTrim st.name) ≠ "")
    (hmsg : (jsTrim st.message) ≠ "") (hid : resp.id = none) (hmid : resp.mid = none) :
    (handleSubmit st (StoreResult.success resp)).currentSessionId = none ∧
    (handleSubmit st (StoreResult.success resp)).hasInitialSubmission = true ∧
    (∀ st2 : ChatState, st2.hasInitialSubmission = true → st2.currentSessionId = none →
       ∀ req : ChatData, validateAndBuild st2 = SubmitAction.proceed req →
         req.session_id = none) ∧
    (∀ (st3 : ChatState) (req : ChatData), validateAndBuild st3 = SubmitAction.proceed req →
       req.session_id ≠ none → ∃ s : String, st3.currentSessionId = some s ∧ s ≠ "") := by
  have hsid : respSessionId resp = none := by
    simp [respSessionId, jsOrOpt, hid, hmid, optTruthy]
  have hbuild : validateAndBuild st = SubmitAction.proceed
      { name := jsOrS (jsTrim st.name) "Anonymous"
        problem := if (jsTrim st.problem) = "" then none else some (jsTrim st.problem)
        message := (jsTrim st.message)
        session_id := none } := by
    simp [validateAndBuild, hfirst, hname, hmsg]
  have hmain : handleSubmit st (StoreResult.success resp) =
      { st with error := ""
                fieldErrorName := false
                fieldErrorMessage := false
                message := ""
                loading := false
                messages := st.messages ++ [userMsgOf st,
                  { type := MsgType.ai, content := resp.ai_response.getD "", name := none }]
                initialName := jsOrS (jsTrim st.name) "Anonymous"
                initialProblem := jsOrS (jsTrim st.problem) "No specific disease mentioned"
                hasInitialSubmission := true
                currentSessionId := respSessionId resp } := by
    unfold handleSubmit
    rw [hbuild]
    simp [hfirst]
  refine ⟨by rw [hmain, hsid], by rw [hmain], ?_, ?_⟩
  · intro st2 hactive2 hnone req hreq
    have : validateAndBuild st2 = SubmitAction.proceed
        { name := st2.initialName
          problem := if st2.initialProblem = "No specific disease mentioned" then none
                     else some st2.initialProblem
          message := (jsTrim st2.message)
          session_id := none } ∨
        validateAndBuild st2 = SubmitAction.blockedMessage := by
      by_cases hm : (jsTrim st2.message) = ""
      · exact Or.inr (by simp [validateAndBuild, hactive2, hm])
      · exact Or.inl (by simp [validateAndBuild, hactive2, hm, hnone, optTruthy])
    rcases this with h | h
    · rw [h] at hreq
      cases hreq
      rfl
    · rw [h] at hreq
      cases hreq
  · intro st3 req hreq hsome
    unfold validateAndBuild at hreq
    split at hreq
    · cases hreq
    · split at hreq
      · cases hreq
      · cases hreq
        simp only at hsome
        by_cases hc : st3.hasInitialSubmission ∧ optTruthy st3.currentSessionId
        · cases hcur : st3.currentSessionId with
          | none =>
              rw [hcur] at hc
              simp [optTruthy] at hc
          | some s =>
              refine ⟨s, rfl, ?_⟩
              have := hc.2
              rw [hcur, optTruthy_some, bne_iff_ne] at this
              exact this
        · rw [if_neg hc] at hsome
          exact absurd rfl hsome

/-- C10 witness: concrete first submission whose successful response has
neither id field. -/
theorem C10_missing_id_binds_null_witness :
    (handleSubmit { scenarioAState with message := "fever" }
        (StoreResult.success { ai_response := some "Take rest", id := none, mid := none })).currentSessionId
      = none ∧
    (handleSubmit { scenarioAState with message := "fever" }
        (StoreResult.success { ai_response := some "Take rest", id := none, mid := none })).hasInitialSubmission
      = true ∧
    (∀ st2 : ChatState, st2.hasInitialSubmission = true → st2.currentSessionId = none →
       ∀ req : ChatData, validateAndBuild st2 = SubmitAction.proceed req →
         req.session_id = none) ∧
    (∀ (st3 : ChatState) (req : ChatData), validateAndBuild st3 = SubmitAction.proceed req →
       req.session_id ≠ none → ∃ s : String, st3.currentSessionId = some s ∧ s ≠ "") :=
  C10_missing_id_binds_null { scenarioAState with message := "fever" }
    { ai_response := some "Take rest", id := none, mid := none }
    rfl (by decide) (by decide) rfl rfl

end PulseAI
